import Mathlib

/-!
Verification of the exchangeRate-mcp server (src/main.py).

The embedding models instants as natural numbers: milliseconds since an
arbitrary UTC epoch.  Asia/Kathmandu is a fixed-offset zone (UTC+05:45,
no daylight saving), so localisation is addition of a constant offset and
the Python `datetime` arithmetic of `get_cache_expiration` becomes plain
arithmetic on milliseconds.  Python's ambient clock (`datetime.now`) is
passed to each modelled operation as an explicit `now` parameter; one call
of a handler runs at one instant.
-/

namespace ExchangeRateMcp

/-- Milliseconds per calendar day. -/
def msPerDay : Nat := 86400000

/-- The fixed UTC offset of Asia/Kathmandu (+05:45) in milliseconds. -/
def nptOffsetMs : Nat := 20700000

/-- 11:00:00.000 as milliseconds after local midnight. -/
def boundaryMs : Nat := 39600000

/-- Convert an absolute instant to Kathmandu local milliseconds. -/
def toLocal (t : Nat) : Nat := t + nptOffsetMs

/-- The Kathmandu calendar date (as a day count) of an instant. -/
def localDate (t : Nat) : Nat := toLocal t / msPerDay

/-- The Kathmandu wall-clock time of day of an instant, in milliseconds. -/
def localTimeOfDay (t : Nat) : Nat := toLocal t % msPerDay

/-- Embedding of `get_cache_expiration` (src/main.py lines 25-41):
interpret `now` in Asia/Kathmandu, take today's 11:00 local as the
candidate expiration, and if `now >= candidate` move it one day forward;
the result is returned as an absolute instant. -/
def get_cache_expiration (now : Nat) : Nat :=
  let nowLocal := toLocal now
  let expiration := nowLocal / msPerDay * msPerDay + boundaryMs
  let expiration2 := if expiration ≤ nowLocal then expiration + msPerDay else expiration
  expiration2 - nptOffsetMs

/-- One cache slot: the stored payload and its expiration instant, both
nullable, mirroring the dicts in `_cache` (src/main.py lines 20-23). -/
structure CacheEntry (α : Type) where
  data : Option α
  expires_at : Option Nat

/-- The cache store `_cache`: a Python dict from string keys to entries;
absent keys map to `none` (Python `dict.get` returning `None`). -/
def CacheState (α : Type) : Type := String → Option (CacheEntry α)

/-- The initial process state of `_cache`: the two slots `forex` and
`bullion` exist and hold null data and null expiration. -/
def initState {α : Type} : CacheState α :=
  fun k => if k = "forex" ∨ k = "bullion" then some ⟨none, none⟩ else none

/-- Embedding of `is_cache_valid` (src/main.py lines 43-55): the entry
must exist, its data and expiration must be non-null, and the current
instant must be strictly before the expiration. -/
def is_cache_valid {α : Type} (st : CacheState α) (k : String) (now : Nat) : Bool :=
  match st k with
  | none => false
  | some e =>
    match e.data with
    | none => false
    | some _ =>
      match e.expires_at with
      | none => false
      | some exp => decide (now < exp)

/-- Embedding of `set_cache` (src/main.py lines 57-62): unconditionally
overwrite the slot with the payload and a freshly computed expiration. -/
def set_cache {α : Type} (st : CacheState α) (k : String) (d : α) (now : Nat) :
    CacheState α :=
  fun k2 => if k2 = k then some ⟨some d, some (get_cache_expiration now)⟩ else st k2

/-- Embedding of `get_cache` (src/main.py lines 64-68): return the stored
payload only while the slot is valid; stale or empty slots read as `None`. -/
def get_cache {α : Type} (st : CacheState α) (k : String) (now : Nat) : Option α :=
  if is_cache_valid st k now then
    match st k with
    | some e => e.data
    | none => none
  else none

/-- C1: `get_cache_expiration`, evaluated with clock `t`, yields the same
Kathmandu calendar date at 11:00:00.000 local when `t`'s local wall-clock
time is strictly before 11:00, and the next calendar date at 11:00 when the
local time is at or after 11:00; in particular, at exactly 11:00:00.000 the
boundary is tomorrow's, not today's. -/
theorem claim_C1_expiration_boundary (t : Nat) :
    toLocal (get_cache_expiration t)
      = (if localTimeOfDay t < boundaryMs then localDate t else localDate t + 1)
          * msPerDay + boundaryMs ∧
    (localTimeOfDay t = boundaryMs →
      toLocal (get_cache_expiration t) = (localDate t + 1) * msPerDay + boundaryMs) := by
  constructor
  · simp only [get_cache_expiration, toLocal, localDate, localTimeOfDay,
      msPerDay, boundaryMs, nptOffsetMs]
    split_ifs with h1 h2 h2 <;> omega
  · intro hEq
    simp only [localTimeOfDay, toLocal, msPerDay, boundaryMs, nptOffsetMs] at hEq
    simp only [get_cache_expiration, toLocal, localDate, localTimeOfDay,
      msPerDay, boundaryMs, nptOffsetMs]
    split_ifs with h1 <;> omega

/-- Witness for C1 at a concrete input: instant 18900000 is exactly
11:00:00.000 Kathmandu local time on day 0 of the epoch, and its boundary
falls on the NEXT calendar day. -/
theorem claim_C1_expiration_boundary_witness :
    localTimeOfDay 18900000 = boundaryMs ∧
    toLocal (get_cache_expiration 18900000)
      = (localDate 18900000 + 1) * msPerDay + boundaryMs :=
  ⟨by decide, (claim_C1_expiration_boundary 18900000).2 (by decide)⟩

/-- C2: after `set_cache(slot, payload)` performed at instant `t0`,
`get_cache(slot)` returns that payload at every instant of
`[t0, get_cache_expiration t0)` and returns `None` at every instant at or
after the boundary; the stale entry is not deleted, merely ignored (the
slot still physically holds the payload and expiration); and in the
initial process state `is_cache_valid` is false for both slots. -/
theorem claim_C2_cache_window {α : Type} (st : CacheState α) (k : String) (d : α)
    (t0 t : Nat) :
    (t0 ≤ t → t < get_cache_expiration t0 →
      get_cache (set_cache st k d t0) k t = some d) ∧
    (get_cache_expiration t0 ≤ t →
      get_cache (set_cache st k d t0) k t = none) ∧
    set_cache st k d t0 k = some ⟨some d, some (get_cache_expiration t0)⟩ ∧
    is_cache_valid (@initState α) "forex" t = false ∧
    is_cache_valid (@initState α) "bullion" t = false := by
  have hk : set_cache st k d t0 k = some ⟨some d, some (get_cache_expiration t0)⟩ := by
    simp [set_cache]
  refine ⟨?_, ?_, hk, ?_, ?_⟩
  · intro _ hlt
    simp [get_cache, is_cache_valid, hk, hlt]
  · intro hge
    simp [get_cache, is_cache_valid, hk]
    omega
  · simp [is_cache_valid, initState]
  · simp [is_cache_valid, initState]

/-- Witness for C2 at concrete inputs: a payload written at instant 0 is
readable at instant 0 and absent at the boundary instant 18900000
(= 11:00 Kathmandu local on day 0 of the epoch). -/
theorem claim_C2_cache_window_witness :
    get_cache (set_cache (@initState Nat) "bullion" 7 0) "bullion" 0 = some 7 ∧
    get_cache (set_cache (@initState Nat) "bullion" 7 0) "bullion" 18900000 = none :=
  ⟨(claim_C2_cache_window (@initState Nat) "bullion" 7 0 0).1 (by decide) (by decide),
   (claim_C2_cache_window (@initState Nat) "bullion" 7 0 18900000).2.1 (by decide)⟩

/-- C10: writing one slot leaves every other slot's entry (data and
expiration alike) unchanged, and the validity check and read of the other
slot are unaffected.  (`is_cache_valid` and `get_cache` are embedded as
pure functions of the state because their Python bodies perform no
assignment, so reads cannot modify any slot by construction.) -/
theorem claim_C10_frame {α : Type} (st : CacheState α) (k1 k2 : String) (d : α)
    (t t2 : Nat) (hne : k1 ≠ k2) :
    set_cache st k1 d t k2 = st k2 ∧
    is_cache_valid (set_cache st k1 d t) k2 t2 = is_cache_valid st k2 t2 ∧
    get_cache (set_cache st k1 d t) k2 t2 = get_cache st k2 t2 := by
  have hk : set_cache st k1 d t k2 = st k2 := by
    simp only [set_cache]
    rw [if_neg (fun h => hne (Eq.symm h))]
  have hv : is_cache_valid (set_cache st k1 d t) k2 t2 = is_cache_valid st k2 t2 := by
    unfold is_cache_valid
    rw [hk]
  refine ⟨hk, hv, ?_⟩
  unfold get_cache
  rw [hk, hv]

/-- Witness for C10 at concrete inputs: writing `forex` does not disturb
the (empty) `bullion` entry. -/
theorem claim_C10_frame_witness :
    set_cache (@initState Nat) "forex" 5 0 "bullion" = (@initState Nat) "bullion" ∧
    is_cache_valid (set_cache (@initState Nat) "forex" 5 0) "bullion" 3
      = is_cache_valid (@initState Nat) "bullion" 3 ∧
    get_cache (set_cache (@initState Nat) "forex" 5 0) "bullion" 3
      = get_cache (@initState Nat) "bullion" 3 :=
  claim_C10_frame (@initState Nat) "forex" "bullion" 5 0 3 (by decide)

/-!
## JSON values and Python dict/list primitives

Handler payloads are arbitrary JSON values.  Scalars that the handlers
only carry around (provider prices, which may be floats) are modelled by
the opaque constructor `atom`; `num` is kept for the integers the code
itself computes (`len(data)`).  Objects are ordered key/value lists,
mirroring Python's insertion-ordered dicts.  Helpers returning `Option`
model Python operations that can raise: `none` is a raised exception,
which the handlers' `except` clauses catch.
-/

/-- A JSON value as handled by the Python code. -/
inductive JVal : Type where
  | null : JVal
  | bool : Bool → JVal
  | num : Nat → JVal
  | str : String → JVal
  | atom : Nat → JVal
  | arr : List JVal → JVal
  | obj : List (String × JVal) → JVal

/-- First value bound to a key in an object's field list (Python dict
lookup; fields of a well-formed dict have distinct keys). -/
def lookupField : List (String × JVal) → String → Option JVal
  | [], _ => none
  | (k2, v) :: rest, k => if k2 = k then some v else lookupField rest k

/-- Python dict assignment `d[k] = v`: replace the value at an existing
key in place (keeping its position), else append the new pair. -/
def setField : List (String × JVal) → String → JVal → List (String × JVal)
  | [], k, v => [(k, v)]
  | (k2, v2) :: rest, k, v =>
    if k2 = k then (k2, v) :: rest else (k2, v2) :: setField rest k v

/-- Python truthiness of a JSON value, as used by `if cached_data:` and
`if not data:`.  Opaque scalars (`atom`) model the providers' non-zero
numeric prices and are taken to be truthy. -/
def jTruthy : JVal → Bool
  | .null => false
  | .bool b => b
  | .num n => n != 0
  | .str s => s != ""
  | .atom _ => true
  | .arr xs => !xs.isEmpty
  | .obj fs => !fs.isEmpty

/-- Field lookup on a JSON value; `none` on non-objects or missing keys.
Used only in theorem statements to inspect result shapes. -/
def jLookup : JVal → String → Option JVal
  | .obj fs, k => lookupField fs k
  | _, _ => none

/-- Python `x.get(k)` (default `None`): raises (`none`) on non-dicts,
otherwise the value or `null`. -/
def pyGet : JVal → String → Option JVal
  | .obj fs, k => some ((lookupField fs k).getD .null)
  | _, _ => none

/-- Python `x.get(k, d)`: raises (`none`) on non-dicts, otherwise the
value or the supplied default. -/
def pyGetD : JVal → String → JVal → Option JVal
  | .obj fs, k, d => some ((lookupField fs k).getD d)
  | _, _, _ => none

/-- Python `len(x)`: defined on strings, lists and dicts; raises
(`none`) otherwise. -/
def pyLen : JVal → Option Nat
  | .str s => some s.length
  | .arr xs => some xs.length
  | .obj fs => some fs.length
  | _ => none

/-- Python iteration `for x in data`: lists yield elements, strings yield
one-character strings, dicts yield their keys; other values raise. -/
def pyIter : JVal → Option (List JVal)
  | .arr xs => some xs
  | .str s => some (s.data.map (fun c => .str (String.mk [c])))
  | .obj fs => some (fs.map (fun f => .str f.1))
  | _ => none

/-- Python `x[i]` indexing for the read `forex_data[0]`. -/
def pyIndex : JVal → Nat → Option JVal
  | .arr xs, i => xs.get? i
  | .str s, i => (s.data.get? i).map (fun c => .str (String.mk [c]))
  | _, _ => none

/-- Python slice `x[:n]`, then iterated (lists and strings only). -/
def pySlice : JVal → Nat → Option (List JVal)
  | .arr xs, n => some (xs.take n)
  | .str s, n => some ((s.data.take n).map (fun c => .str (String.mk [c])))
  | _, _ => none

/-- Python `str.upper()` (ASCII, as the currency codes are). -/
def pyUpperStr (s : String) : String := String.mk (s.data.map Char.toUpper)

/-- Python `str.lower()` (ASCII). -/
def pyLowerStr (s : String) : String := String.mk (s.data.map Char.toLower)

/-- Python `str.strip()`: drop leading and trailing whitespace. -/
def pyStrip (s : String) : String :=
  String.mk (((s.data.dropWhile Char.isWhitespace).reverse.dropWhile
    Char.isWhitespace).reverse)

/-- Python `x.upper()` on a JSON value: only strings have `.upper`;
anything else raises `AttributeError` (`none`). -/
def pyUpper : JVal → Option String
  | .str s => some (pyUpperStr s)
  | _ => none

/-- Models Python `str()` as used inside the handlers' f-strings.
Scalars are rendered exactly; the rendering of containers and of the
opaque `atom` scalars is abstracted to a summary, since no verified
property depends on those message texts. -/
def pyStr : JVal → String
  | .null => "None"
  | .bool true => "True"
  | .bool false => "False"
  | .num n => toString n
  | .str s => s
  | .atom n => "<" ++ toString n ++ ">"
  | .arr xs => "<list of " ++ toString xs.length ++ ">"
  | .obj fs => "<dict of " ++ toString fs.length ++ ">"

/-- Python `==` between a JSON value and a string literal: true exactly
for an equal string (values of other types never equal a `str`). -/
def eqStr (v : JVal) (s : String) : Bool :=
  match v with
  | .str s2 => s2 == s
  | _ => false

/-!
## Handler embeddings

Each handler runs at one instant `now`, with the configured upstream URL
passed in (the code reads it from the environment), and with the outcome
the upstream interaction would have, should the handler actually perform
the fetch, supplied as a `FetchOutcome`.  A handler maps the shared cache
state to a (result, new cache state) pair; Python's in-place dict
mutation on the cache-hit path is reflected as an explicit state update.
-/

/-- Outcome of the single outbound `httpx` GET a handler may perform:
a timeout, a non-2xx status (raised by `raise_for_status`), a body that
`response.json()` fails to parse, any other exception, or a parsed JSON
body.  The strings carried by the failure constructors model the
interpreter-generated `str(e)` texts. -/
inductive FetchOutcome : Type where
  | timeout : FetchOutcome
  | httpError : Nat → FetchOutcome
  | malformedBody : String → FetchOutcome
  | otherError : String → FetchOutcome
  | ok : JVal → FetchOutcome

/-- The uniform failure dict built by the tools' `except` clauses. -/
def errDict (msg : String) : JVal :=
  .obj [("error", .str msg), ("success", .bool false)]

/-- Abstract stand-in for interpreter-generated exception text (the
`str(e)` of a `TypeError`/`AttributeError`/`IndexError` raised while the
handler manipulates malformed data); no verified property depends on its
exact content. -/
def runtimeErrText : String := "runtime error"

/-- The failure dict of the generic `except Exception` clauses for an
exception raised by the handler's own data manipulation. -/
def errUnexpectedRuntime : JVal := errDict ("Unexpected error: " ++ runtimeErrText)

/-- The error message each tool's `except` clauses produce for a failing
fetch outcome (`none` for a successful fetch). -/
def failureMsg : FetchOutcome → Option String
  | .timeout => some "Request timed out. Please try again."
  | .httpError s => some ("HTTP error occurred: " ++ toString s)
  | .malformedBody m => some ("Unexpected error: " ++ m)
  | .otherError m => some ("Unexpected error: " ++ m)
  | .ok _ => none

/-- In-place replacement of the payload object held by a slot (the
effect of mutating, through the reference `get_cache` returned, the dict
stored in `_cache[k]["data"]`); the slot's expiration is untouched. -/
def updateData (st : CacheState JVal) (k : String) (d : JVal) : CacheState JVal :=
  fun k2 => if k2 = k then (st k2).map (fun e => ⟨some d, e.expires_at⟩) else st k2

/-- The fetch-and-format path of `get_bullion_prices` (src/main.py lines
219-258): perform the GET, and on a parsed body build the shaped result
(reading the provider fields with `data.get`), cache it, and return it.
A non-dict body makes `data.get` raise, caught by `except Exception`. -/
def bullionFetch (st : CacheState JVal) (now : Nat) (url : String)
    (out : FetchOutcome) : JVal × CacheState JVal :=
  match out with
  | .timeout => (errDict "Request timed out. Please try again.", st)
  | .httpError s => (errDict ("HTTP error occurred: " ++ toString s), st)
  | .malformedBody m => (errDict ("Unexpected error: " ++ m), st)
  | .otherError m => (errDict ("Unexpected error: " ++ m), st)
  | .ok body =>
    match body with
    | .obj fs =>
      let unit := (lookupField fs "unit").getD .null
      let fine_gold := (lookupField fs "fine_gold").getD .null
      let silver := (lookupField fs "silver").getD .null
      let date := (lookupField fs "date").getD .null
      let result : JVal := .obj [
        ("success", .bool true),
        ("tool", .str "get_bullion_prices"),
        ("category", .str "bullion_prices"),
        ("schema_version", .str "1.0"),
        ("cached", .bool false),
        ("data", .obj [
          ("gold", .obj [("amount", fine_gold), ("unit", unit),
            ("currency", .str "NPR")]),
          ("silver", .obj [("amount", silver), ("unit", unit),
            ("currency", .str "NPR")]),
          ("date", date),
          ("source", .str url)]),
        ("fine_gold", fine_gold),
        ("silver", silver),
        ("unit", unit),
        ("date", date),
        ("raw", body),
        ("message", .str ("Fine Gold: " ++ pyStr fine_gold ++ " per " ++ pyStr unit
          ++ ", Silver: " ++ pyStr silver ++ " per " ++ pyStr unit
          ++ " (as of " ++ pyStr date ++ ")"))]
      (result, set_cache st "bullion" result now)
    | _ => (errUnexpectedRuntime, st)

/-- Embedding of the `get_bullion_prices` tool (src/main.py lines
199-265).  On a truthy cache hit it sets `cached_data["cached"] = True`
on the very object held in the slot (so the slot's payload is updated in
place, its expiration untouched) and returns that object; a non-dict
cached payload makes the assignment raise.  Otherwise it fetches. -/
def get_bullion_prices (st : CacheState JVal) (now : Nat) (url : String)
    (out : FetchOutcome) : JVal × CacheState JVal :=
  match get_cache st "bullion" now with
  | some cached =>
    if jTruthy cached then
      match cached with
      | .obj fs =>
        let updated : JVal := .obj (setField fs "cached" (.bool true))
        (updated, updateData st "bullion" updated)
      | _ => (errUnexpectedRuntime, st)
    else bullionFetch st now url out
  | none => bullionFetch st now url out

/-- The `"ALL"` branch result of `get_forex_rates` (src/main.py lines
380-393): every record, a `count` equal to `len(data)`, and a summary. -/
def forexAll (url : String) (from_cache : Bool) (data : JVal) : JVal :=
  match pyLen data with
  | none => errUnexpectedRuntime
  | some n =>
    .obj [
      ("success", .bool true),
      ("tool", .str "get_forex_rates"),
      ("category", .str "forex_rates"),
      ("schema_version", .str "1.0"),
      ("cached", .bool from_cache),
      ("data", .obj [("rates", data), ("source", .str url)]),
      ("rates", data),
      ("count", .num n),
      ("raw", data),
      ("message", .str ("Retrieved " ++ toString n
        ++ " forex rates from Nepal Rastra Bank"))]

/-- The not-found branch result of `get_forex_rates` (src/main.py lines
399-406): a failure whose message lists the available codes uppercased,
joined with a comma and space. -/
def forexNotFound (currency : String) (codes : List String) : JVal :=
  .obj [
    ("success", .bool false),
    ("error", .str ("Currency \x27" ++ pyUpperStr currency
      ++ "\x27 not found. Available currencies: "
      ++ String.intercalate ", " codes)),
    ("tool", .str "get_forex_rates"),
    ("category", .str "forex_rates")]

/-- The list comprehension
`[rate for rate in data if rate.get("currency") == currency_lower]`:
keeps, in order, the records whose `currency` field equals the lowered
code; a non-dict element makes `rate.get` raise (`none`). -/
def filterRates : List JVal → String → Option (List JVal)
  | [], _ => some []
  | r :: rest, code =>
    match r with
    | .obj rfs =>
      match filterRates rest code with
      | none => none
      | some l =>
        some (if eqStr ((lookupField rfs "currency").getD .null) code
          then r :: l else l)
    | _ => none

/-- `", ".join([rate.get("currency", "").upper() for rate in data])`,
element by element; raises (`none`) on a non-dict record or a non-string
currency field. -/
def availableCodes : List JVal → Option (List String)
  | [] => some []
  | r :: rest =>
    match r with
    | .obj rfs =>
      match pyUpper ((lookupField rfs "currency").getD (.str "")) with
      | none => none
      | some c =>
        match availableCodes rest with
        | none => none
        | some cs => some (c :: cs)
    | _ => none

/-- The single-currency success result of `get_forex_rates` (src/main.py
lines 408-433), built from the first matching record. -/
def forexSingle (url : String) (from_cache : Bool) (rate_info : JVal) : JVal :=
  match rate_info with
  | .obj rfs =>
    match pyUpper ((lookupField rfs "currency").getD (.str "")) with
    | none => errUnexpectedRuntime
    | some curUpper =>
      let unit := (lookupField rfs "unit").getD .null
      let buy := (lookupField rfs "buy").getD .null
      let sell := (lookupField rfs "sell").getD .null
      let date := (lookupField rfs "date").getD .null
      .obj [
        ("success", .bool true),
        ("tool", .str "get_forex_rates"),
        ("category", .str "forex_rates"),
        ("schema_version", .str "1.0"),
        ("cached", .bool from_cache),
        ("data", .obj [("currency", .str curUpper), ("unit", unit),
          ("buy", buy), ("sell", sell), ("date", date), ("source", .str url)]),
        ("currency", .str curUpper),
        ("unit", unit),
        ("buy", buy),
        ("sell", sell),
        ("date", date),
        ("raw", rate_info),
        ("message", .str (curUpper ++ " - Buy: NPR " ++ pyStr buy
          ++ ", Sell: NPR " ++ pyStr sell ++ " per " ++ pyStr unit
          ++ " unit(s)"))]
  | _ => errUnexpectedRuntime

/-- The shaping stage of `get_forex_rates` (src/main.py lines 380-433),
run after the cache/fetch stage decided `data` and `from_cache`: the
`"ALL"` branch, the currency filter, the not-found branch, and the
single-currency branch.  `st` is the cache state at this point; a raised
exception here is caught without undoing an already-performed write. -/
def forexProcess (st : CacheState JVal) (url : String) (currency : String)
    (data : JVal) (from_cache : Bool) : JVal × CacheState JVal :=
  if pyStrip (pyUpperStr currency) = "ALL" then
    (forexAll url from_cache data, st)
  else
    match pyIter data with
    | none => (errUnexpectedRuntime, st)
    | some rates =>
      match filterRates rates (pyStrip (pyLowerStr currency)) with
      | none => (errUnexpectedRuntime, st)
      | some [] =>
        match availableCodes rates with
        | none => (errUnexpectedRuntime, st)
        | some codes => (forexNotFound currency codes, st)
      | some (rate_info :: _) => (forexSingle url from_cache rate_info, st)

/-- The fetch path of `get_forex_rates` (src/main.py lines 368-378): on
a parsed body the raw data is cached first, then shaped. -/
def forexFetch (st : CacheState JVal) (now : Nat) (url : String)
    (currency : String) (out : FetchOutcome) : JVal × CacheState JVal :=
  match out with
  | .timeout => (errDict "Request timed out. Please try again.", st)
  | .httpError s => (errDict ("HTTP error occurred: " ++ toString s), st)
  | .malformedBody m => (errDict ("Unexpected error: " ++ m), st)
  | .otherError m => (errDict ("Unexpected error: " ++ m), st)
  | .ok body => forexProcess (set_cache st "forex" body now) url currency body false

/-- Embedding of the `get_forex_rates` tool (src/main.py lines 341-440):
a truthy cached payload is used as-is (`from_cache` true); otherwise the
data is fetched and cached raw before shaping. -/
def get_forex_rates (st : CacheState JVal) (now : Nat) (url : String)
    (currency : String) (out : FetchOutcome) : JVal × CacheState JVal :=
  match get_cache st "forex" now with
  | some cached =>
    if jTruthy cached then forexProcess st url currency cached true
    else forexFetch st now url currency out
  | none => forexFetch st now url currency out

/-- Abstract stand-in for Python's `str(e)` of the `httpx` exception a
failing fetch raises, as interpolated by `get_banking_rates`' generic
`except` clause; no verified property depends on its exact content. -/
def fetchExnText : FetchOutcome → Option String
  | .timeout => some "timed out"
  | .httpError s => some ("status " ++ toString s)
  | .malformedBody m => some m
  | .otherError m => some m
  | .ok _ => none

/-- One row of the forex table of `get_banking_rates` (src/main.py lines
324-329), over the sliced record list; a non-dict record or a non-string
currency makes the row construction raise. -/
def bankingRows : List JVal → Option String
  | [] => some ""
  | r :: rest =>
    match r with
    | .obj rfs =>
      match pyUpper ((lookupField rfs "currency").getD (.str "")) with
      | none => none
      | some cur =>
        let unit := (lookupField rfs "unit").getD (.num 1)
        let buy := (lookupField rfs "buy").getD (.str "N/A")
        let sell := (lookupField rfs "sell").getD (.str "N/A")
        match bankingRows rest with
        | none => none
        | some s => some ("| " ++ cur ++ " | " ++ pyStr unit ++ " | "
            ++ pyStr buy ++ " | " ++ pyStr sell ++ " |\n" ++ s)
    | _ => none

/-- The formatting stage of `get_banking_rates` (src/main.py lines
307-335): header, bullion section (unwrapping a shaped payload's `raw`
key when present), top-ten forex table, and footer.  `Except.error`
models an exception raised while formatting. -/
def bankingFormat (forex_data bullion_data : JVal) (from_cache : Bool) :
    Except String String :=
  match pyIndex forex_data 0 with
  | none => .error runtimeErrText
  | some f0 =>
    match pyGetD f0 "date" (.str "N/A") with
    | none => .error runtimeErrText
    | some dateV =>
      let header := "# Nepal Rastra Bank - Daily Banking Rates\n\n"
        ++ "**Last Updated:** " ++ pyStr dateV ++ " at 11:00 AM NPT\n"
        ++ "**Cached:** " ++ (if from_cache then "Yes" else "No") ++ "\n\n"
      let bullion_raw : JVal :=
        match bullion_data with
        | .obj fs =>
          match lookupField fs "raw" with
          | some r => r
          | none => bullion_data
        | _ => bullion_data
      match bullion_raw with
      | .obj bfs =>
        let sec1 := "## Bullion Prices (NPR)\n\n"
          ++ "- **Fine Gold:** NPR " ++ pyStr ((lookupField bfs "fine_gold").getD .null)
          ++ " per " ++ pyStr ((lookupField bfs "unit").getD .null) ++ "\n"
          ++ "- **Silver:** NPR " ++ pyStr ((lookupField bfs "silver").getD .null)
          ++ " per " ++ pyStr ((lookupField bfs "unit").getD .null) ++ "\n"
          ++ "- **Date:** " ++ pyStr ((lookupField bfs "date").getD .null) ++ "\n\n"
        match pySlice forex_data 10 with
        | none => .error runtimeErrText
        | some rows =>
          match bankingRows rows with
          | none => .error runtimeErrText
          | some rowsStr =>
            match pyLen forex_data with
            | none => .error runtimeErrText
            | some n =>
              .ok (header ++ sec1 ++ "## Foreign Exchange Rates\n\n"
                ++ "| Currency | Unit | Buy (NPR) | Sell (NPR) |\n"
                ++ "|----------|------|-----------|------------|\n"
                ++ rowsStr
                ++ "\n**Total Currencies Available:** " ++ toString n ++ "\n"
                ++ "\n---\n"
                ++ "*Rates are updated daily at 11:00 AM NPT by Nepal Rastra Bank*\n")
      | _ => .error runtimeErrText

/-- Embedding of the `banking://rates/daily` resource handler
`get_banking_rates` (src/main.py lines 268-338).  For each slot whose
cached payload is missing or falsy it fetches the provider body and
stores the RAW JSON with `set_cache` (forex first, then bullion); a
failed fetch aborts the rest but keeps any write already performed, and
the generic `except` clause converts the exception to an error string.
The formatting stage never writes the cache. -/
def get_banking_rates (st : CacheState JVal) (now : Nat)
    (forexOut bullionOut : FetchOutcome) : String × CacheState JVal :=
  let forex0 := get_cache st "forex" now
  let bullion0 := get_cache st "bullion" now
  let from_cache := forex0.isSome && bullion0.isSome
  let tf : Bool := match forex0 with | some c => jTruthy c | none => false
  let tb : Bool := match bullion0 with | some c => jTruthy c | none => false
  let stepF : Except String (JVal × CacheState JVal) :=
    if tf then .ok (forex0.getD .null, st)
    else
      match forexOut with
      | .ok body => .ok (body, set_cache st "forex" body now)
      | e => .error ((fetchExnText e).getD "")
  match stepF with
  | .error m => ("Error fetching banking rates: " ++ m, st)
  | .ok (fd, st1) =>
    let stepB : Except String (JVal × CacheState JVal) :=
      if tb then .ok (bullion0.getD .null, st1)
      else
        match bullionOut with
        | .ok body => .ok (body, set_cache st1 "bullion" body now)
        | e => .error ((fetchExnText e).getD "")
    match stepB with
    | .error m => ("Error fetching banking rates: " ++ m, st1)
    | .ok (bd, st2) =>
      match bankingFormat fd bd from_cache with
      | .ok s => (s, st2)
      | .error m => ("Error fetching banking rates: " ++ m, st2)

/-- C3: for every upstream failure outcome (timeout, non-2xx status,
malformed body, any other exception), both tool handlers — embedded as
total functions, so no exception escapes the handler boundary — convert
the failure into the uniform structured result, a dict with
`success = False` and a human-readable `error` string.  (The empty-cache
hypotheses make the handlers actually consult the upstream.) -/
theorem claim_C3_uniform_failure (st : CacheState JVal) (now : Nat)
    (url curr : String) (out : FetchOutcome) (m : String)
    (hm : failureMsg out = some m)
    (hb : get_cache st "bullion" now = none)
    (hf : get_cache st "forex" now = none) :
    (get_bullion_prices st now url out).1 = errDict m ∧
    (get_forex_rates st now url curr out).1 = errDict m ∧
    jLookup (errDict m) "success" = some (.bool false) ∧
    jLookup (errDict m) "error" = some (.str m) := by
  have hshape : jLookup (errDict m) "success" = some (JVal.bool false) ∧
      jLookup (errDict m) "error" = some (JVal.str m) := by
    constructor <;> simp [jLookup, errDict, lookupField]
  cases out with
  | ok b => simp [failureMsg] at hm
  | timeout =>
    simp only [failureMsg, Option.some.injEq] at hm
    subst hm
    exact ⟨by simp [get_bullion_prices, hb, bullionFetch],
      by simp [get_forex_rates, hf, forexFetch], hshape.1, hshape.2⟩
  | httpError s =>
    simp only [failureMsg, Option.some.injEq] at hm
    subst hm
    exact ⟨by simp [get_bullion_prices, hb, bullionFetch],
      by simp [get_forex_rates, hf, forexFetch], hshape.1, hshape.2⟩
  | malformedBody s =>
    simp only [failureMsg, Option.some.injEq] at hm
    subst hm
    exact ⟨by simp [get_bullion_prices, hb, bullionFetch],
      by simp [get_forex_rates, hf, forexFetch], hshape.1, hshape.2⟩
  | otherError s =>
    simp only [failureMsg, Option.some.injEq] at hm
    subst hm
    exact ⟨by simp [get_bullion_prices, hb, bullionFetch],
      by simp [get_forex_rates, hf, forexFetch], hshape.1, hshape.2⟩

/-- Witness for C3 at concrete inputs: a timeout against the initial
(empty) cache yields the uniform failure result from both tools. -/
theorem claim_C3_uniform_failure_witness :
    (get_bullion_prices (@initState JVal) 0 "u" FetchOutcome.timeout).1
      = errDict "Request timed out. Please try again." ∧
    (get_forex_rates (@initState JVal) 0 "u" "USD" FetchOutcome.timeout).1
      = errDict "Request timed out. Please try again." ∧
    jLookup (errDict "Request timed out. Please try again.") "success"
      = some (.bool false) ∧
    jLookup (errDict "Request timed out. Please try again.") "error"
      = some (.str "Request timed out. Please try again.") :=
  claim_C3_uniform_failure (@initState JVal) 0 "u" "USD" FetchOutcome.timeout
    "Request timed out. Please try again." rfl rfl rfl

/-- C4: with the bullion slot unpopulated, an upstream HTTP 500 makes
`get_bullion_prices` return exactly the dict with
`error = "HTTP error occurred: 500"` and `success = False`, and leaves
the whole cache state — in particular the bullion slot — unchanged: the
error path performs no cache write. -/
theorem claim_C4_http500 (st : CacheState JVal) (now : Nat) (url : String)
    (hb : st "bullion" = some ⟨none, none⟩) :
    get_bullion_prices st now url (.httpError 500)
      = (errDict "HTTP error occurred: 500", st) ∧
    (get_bullion_prices st now url (.httpError 500)).2 "bullion"
      = some ⟨none, none⟩ ∧
    jLookup (errDict "HTTP error occurred: 500") "success" = some (.bool false) ∧
    jLookup (errDict "HTTP error occurred: 500") "error"
      = some (.str "HTTP error occurred: 500") := by
  have hg : get_cache st "bullion" now = none := by
    simp [get_cache, is_cache_valid, hb]
  have hmsg : ("HTTP error occurred: " ++ toString (500 : Nat))
      = "HTTP error occurred: 500" := rfl
  have h1 : get_bullion_prices st now url (.httpError 500)
      = (errDict "HTTP error occurred: 500", st) := by
    simp [get_bullion_prices, hg, bullionFetch, hmsg]
  refine ⟨h1, ?_, ?_, ?_⟩
  · rw [h1]
    exact hb
  · simp [jLookup, errDict, lookupField]
  · simp [jLookup, errDict, lookupField]

/-- Witness for C4 at concrete inputs: HTTP 500 against the initial
state. -/
theorem claim_C4_http500_witness :
    get_bullion_prices (@initState JVal) 0 "u" (.httpError 500)
      = (errDict "HTTP error occurred: 500", @initState JVal) ∧
    (get_bullion_prices (@initState JVal) 0 "u" (.httpError 500)).2 "bullion"
      = some ⟨none, none⟩ ∧
    jLookup (errDict "HTTP error occurred: 500") "success" = some (.bool false) ∧
    jLookup (errDict "HTTP error occurred: 500") "error"
      = some (.str "HTTP error occurred: 500") :=
  claim_C4_http500 (@initState JVal) 0 "u" rfl

/-- The Boolean the filter comprehension tests on one record. -/
def matchesCode (code : String) (x : JVal) : Bool :=
  match x with
  | .obj rfs => eqStr ((lookupField rfs "currency").getD .null) code
  | _ => false

theorem eqStr_getD_iff {o : Option JVal} {code : String}
    (h : eqStr (o.getD .null) code = true) : o = some (.str code) := by
  cases o with
  | none => simp [eqStr] at h
  | some v =>
    cases v <;> simp [eqStr] at h ⊢
    exact h

/-- A successful, non-empty run of the filter comprehension yields a
first element that is a record whose `currency` field is exactly the
searched code, and that record is the FIRST such record of the input
sequence. -/
theorem filterRates_first (code : String) :
    ∀ (xs : List JVal) (r : JVal) (rest : List JVal),
      filterRates xs code = some (r :: rest) →
      (∃ rfs, r = JVal.obj rfs ∧ lookupField rfs "currency" = some (.str code)) ∧
      xs.find? (matchesCode code) = some r := by
  intro xs
  induction xs with
  | nil =>
    intro r rest h
    simp [filterRates] at h
  | cons x t ih =>
    intro r rest h
    unfold filterRates at h
    cases x with
    | obj rfs =>
      cases hft : filterRates t code with
      | none => rw [hft] at h; simp at h
      | some l =>
        rw [hft] at h
        by_cases hcm : eqStr ((lookupField rfs "currency").getD .null) code = true
        · simp only [hcm, if_true, Option.some.injEq, List.cons.injEq] at h
          obtain ⟨h1, _⟩ := h
          refine ⟨⟨rfs, h1.symm, ?_⟩, ?_⟩
          · exact eqStr_getD_iff hcm
          · rw [List.find?_cons_of_pos]
            · exact congrArg some h1
            · simpa [matchesCode] using hcm
        · simp only [hcm, if_false, Option.some.injEq] at h
          subst h
          obtain ⟨h1, h2⟩ := ih r rest hft
          refine ⟨h1, ?_⟩
          rw [List.find?_cons_of_neg, h2]
          simpa [matchesCode] using hcm
    | null => simp at h
    | bool b => simp at h
    | num n => simp at h
    | str s => simp at h
    | atom a => simp at h
    | arr l => simp at h

/-- The join of uppercased codes has one entry per record. -/
theorem availableCodes_length :
    ∀ (xs : List JVal) (codes : List String),
      availableCodes xs = some codes → codes.length = xs.length := by
  intro xs
  induction xs with
  | nil =>
    intro codes h
    simp only [availableCodes, Option.some.injEq] at h
    simp [← h]
  | cons x t ih =>
    intro codes h
    cases x with
    | obj rfs =>
      simp only [availableCodes] at h
      cases hup : pyUpper ((lookupField rfs "currency").getD (.str "")) with
      | none => rw [hup] at h; simp at h
      | some c =>
        rw [hup] at h
        cases hac : availableCodes t with
        | none => rw [hac] at h; simp at h
        | some cs =>
          rw [hac] at h
          simp only [Option.some.injEq] at h
          subst h
          simp [ih cs hac]
    | null => simp [availableCodes] at h
    | bool b => simp [availableCodes] at h
    | num n => simp [availableCodes] at h
    | str s => simp [availableCodes] at h
    | atom a => simp [availableCodes] at h
    | arr l => simp [availableCodes] at h

/-- C5: with a cached forex sequence whose filter run for `usd` succeeds
with a first match `r`, the inputs `"usd"`, `"USD"` and `" Usd "` all
resolve to the very same success result built from `r`; the input is
matched case-insensitively (lowered and stripped) against the stored
codes, and `r` is the first record of the sequence whose code is `usd`. -/
theorem claim_C5_usd_case_insensitive (st : CacheState JVal) (now : Nat)
    (url : String) (out : FetchOutcome) (xs : List JVal) (r : JVal)
    (rest : List JVal)
    (hc : get_cache st "forex" now = some (.arr xs))
    (ht : jTruthy (.arr xs) = true)
    (hfil : filterRates xs "usd" = some (r :: rest)) :
    get_forex_rates st now url "usd" out = (forexSingle url true r, st) ∧
    get_forex_rates st now url "USD" out = (forexSingle url true r, st) ∧
    get_forex_rates st now url " Usd " out = (forexSingle url true r, st) ∧
    jLookup (forexSingle url true r) "success" = some (.bool true) ∧
    jLookup (forexSingle url true r) "raw" = some r ∧
    xs.find? (matchesCode "usd") = some r := by
  obtain ⟨⟨rfs, hr, hcur⟩, hfind⟩ := filterRates_first "usd" xs r rest hfil
  have hgo : ∀ input : String, pyStrip (pyUpperStr input) ≠ "ALL" →
      pyStrip (pyLowerStr input) = "usd" →
      get_forex_rates st now url input out = (forexSingle url true r, st) := by
    intro input hnall hlow
    rw [get_forex_rates, hc]
    simp only [ht, if_true]
    rw [forexProcess, if_neg hnall, hlow]
    simp only [pyIter, hfil]
  refine ⟨hgo "usd" (by decide) (by decide),
    hgo "USD" (by decide) (by decide),
    hgo " Usd " (by decide) (by decide), ?_, ?_, hfind⟩
  · subst hr
    simp [forexSingle, hcur, pyUpper, jLookup, lookupField]
  · subst hr
    simp [forexSingle, hcur, pyUpper, jLookup, lookupField]

/-- Concrete forex sequence for the witnesses: one `eur` record and two
`usd` records (so first-match-wins is exercised). -/
def wForexList : List JVal :=
  [JVal.obj [("currency", JVal.str "eur"), ("buy", JVal.atom 9)],
   JVal.obj [("currency", JVal.str "usd"), ("buy", JVal.atom 1)],
   JVal.obj [("currency", JVal.str "usd"), ("buy", JVal.atom 2)]]

/-- The first `usd` record of `wForexList`. -/
def wUsdRec : JVal := JVal.obj [("currency", JVal.str "usd"), ("buy", JVal.atom 1)]

/-- A state whose forex slot was populated with `wForexList` at instant 0. -/
def wForexSt : CacheState JVal :=
  set_cache (@initState JVal) "forex" (.arr wForexList) 0

/-- Witness for C5 at concrete inputs. -/
theorem claim_C5_usd_case_insensitive_witness :
    get_forex_rates wForexSt 1 "u" "usd" FetchOutcome.timeout
      = (forexSingle "u" true wUsdRec, wForexSt) ∧
    get_forex_rates wForexSt 1 "u" "USD" FetchOutcome.timeout
      = (forexSingle "u" true wUsdRec, wForexSt) ∧
    get_forex_rates wForexSt 1 "u" " Usd " FetchOutcome.timeout
      = (forexSingle "u" true wUsdRec, wForexSt) ∧
    jLookup (forexSingle "u" true wUsdRec) "success" = some (.bool true) ∧
    jLookup (forexSingle "u" true wUsdRec) "raw" = some wUsdRec ∧
    wForexList.find? (matchesCode "usd") = some wUsdRec :=
  claim_C5_usd_case_insensitive wForexSt 1 "u" FetchOutcome.timeout wForexList
    wUsdRec [JVal.obj [("currency", JVal.str "usd"), ("buy", JVal.atom 2)]]
    rfl rfl rfl

/-- C6: when the input token uppercases-and-strips to `"ALL"`,
`get_forex_rates` returns the success result carrying the entire record
sequence (both from a truthy cache hit and from a fresh fetch of the
sequence) with a `count` equal to the sequence length. -/
theorem claim_C6_all_branch (st : CacheState JVal) (now : Nat) (url input : String)
    (out : FetchOutcome) (xs : List JVal) (b : Bool)
    (hall : pyStrip (pyUpperStr input) = "ALL") :
    (get_cache st "forex" now = some (.arr xs) → jTruthy (.arr xs) = true →
      get_forex_rates st now url input out = (forexAll url true (.arr xs), st)) ∧
    (get_cache st "forex" now = none →
      get_forex_rates st now url input (.ok (.arr xs))
        = (forexAll url false (.arr xs), set_cache st "forex" (.arr xs) now)) ∧
    jLookup (forexAll url b (.arr xs)) "rates" = some (.arr xs) ∧
    jLookup (forexAll url b (.arr xs)) "count" = some (.num xs.length) ∧
    jLookup (forexAll url b (.arr xs)) "success" = some (.bool true) := by
  refine ⟨?_, ?_, ?_, ?_, ?_⟩
  · intro hc ht
    rw [get_forex_rates, hc]
    simp only [ht, if_true]
    rw [forexProcess, if_pos hall]
  · intro hc
    rw [get_forex_rates, hc]
    rw [forexFetch, forexProcess, if_pos hall]
  · simp [forexAll, pyLen, jLookup, lookupField]
  · simp [forexAll, pyLen, jLookup, lookupField]
  · simp [forexAll, pyLen, jLookup, lookupField]

/-- Witness for C6 at concrete inputs, with the case/whitespace variant
`" all "`, for both the cache-hit and the fetch path. -/
theorem claim_C6_all_branch_witness :
    get_forex_rates wForexSt 1 "u" " all " FetchOutcome.timeout
      = (forexAll "u" true (.arr wForexList), wForexSt) ∧
    get_forex_rates (@initState JVal) 0 "u" " all " (.ok (.arr wForexList))
      = (forexAll "u" false (.arr wForexList),
         set_cache (@initState JVal) "forex" (.arr wForexList) 0) ∧
    jLookup (forexAll "u" true (.arr wForexList)) "rates"
      = some (.arr wForexList) ∧
    jLookup (forexAll "u" true (.arr wForexList)) "count"
      = some (.num wForexList.length) ∧
    jLookup (forexAll "u" true (.arr wForexList)) "success"
      = some (.bool true) :=
  ⟨(claim_C6_all_branch wForexSt 1 "u" " all " FetchOutcome.timeout wForexList
      true (by decide)).1 rfl rfl,
   (claim_C6_all_branch (@initState JVal) 0 "u" " all "
      (.ok (.arr wForexList)) wForexList true (by decide)).2.1 rfl,
   (claim_C6_all_branch wForexSt 1 "u" " all " FetchOutcome.timeout wForexList
      true (by decide)).2.2.1,
   (claim_C6_all_branch wForexSt 1 "u" " all " FetchOutcome.timeout wForexList
      true (by decide)).2.2.2.1,
   (claim_C6_all_branch wForexSt 1 "u" " all " FetchOutcome.timeout wForexList
      true (by decide)).2.2.2.2⟩

/-- C7: a requested code that matches no record yields a failure result
(`success = False`) whose error message lists every available currency
code of the sequence, uppercased and joined with `", "` — one listed
code per record. -/
theorem claim_C7_not_found (st : CacheState JVal) (now : Nat) (url input : String)
    (out : FetchOutcome) (xs : List JVal) (codes : List String)
    (hc : get_cache st "forex" now = some (.arr xs))
    (ht : jTruthy (.arr xs) = true)
    (hnall : pyStrip (pyUpperStr input) ≠ "ALL")
    (hfil : filterRates xs (pyStrip (pyLowerStr input)) = some [])
    (ha : availableCodes xs = some codes) :
    get_forex_rates st now url input out = (forexNotFound input codes, st) ∧
    jLookup (forexNotFound input codes) "success" = some (.bool false) ∧
    jLookup (forexNotFound input codes) "error"
      = some (.str ("Currency \x27" ++ pyUpperStr input
        ++ "\x27 not found. Available currencies: "
        ++ String.intercalate ", " codes)) ∧
    codes.length = xs.length := by
  refine ⟨?_, ?_, ?_, availableCodes_length xs codes ha⟩
  · rw [get_forex_rates, hc]
    simp only [ht, if_true]
    rw [forexProcess, if_neg hnall]
    simp only [pyIter, hfil, ha]
  · simp [forexNotFound, jLookup, lookupField]
  · simp [forexNotFound, jLookup, lookupField]

/-- Witness for C7 at concrete inputs: requesting `xyz` against the
cached sequence of codes `eur`, `usd`, `usd`. -/
theorem claim_C7_not_found_witness :
    get_forex_rates wForexSt 1 "u" "xyz" FetchOutcome.timeout
      = (forexNotFound "xyz" ["EUR", "USD", "USD"], wForexSt) ∧
    jLookup (forexNotFound "xyz" ["EUR", "USD", "USD"]) "success"
      = some (.bool false) ∧
    jLookup (forexNotFound "xyz" ["EUR", "USD", "USD"]) "error"
      = some (.str ("Currency \x27" ++ pyUpperStr "xyz"
        ++ "\x27 not found. Available currencies: "
        ++ String.intercalate ", " ["EUR", "USD", "USD"])) ∧
    (["EUR", "USD", "USD"] : List String).length = wForexList.length :=
  claim_C7_not_found wForexSt 1 "u" "xyz" FetchOutcome.timeout wForexList
    ["EUR", "USD", "USD"] rfl rfl (by decide) rfl rfl

theorem lookupField_setField_self (fs : List (String × JVal)) (k : String)
    (v : JVal) : lookupField (setField fs k v) k = some v := by
  induction fs with
  | nil => simp [setField, lookupField]
  | cons f rest ih =>
    by_cases hk : f.1 = k
    · simp [setField, lookupField, hk]
    · cases f with
      | mk k2 v2 =>
        simp only at hk
        simp [setField, lookupField, hk, ih]

theorem lookupField_setField_ne (fs : List (String × JVal)) (k k2 : String)
    (v : JVal) (hne : k2 ≠ k) :
    lookupField (setField fs k v) k2 = lookupField fs k2 := by
  have hnk : ¬ k = k2 := fun h => hne h.symm
  induction fs with
  | nil =>
    simp only [setField, lookupField]
    rw [if_neg hnk]
  | cons f rest ih =>
    cases f with
    | mk k3 v3 =>
      by_cases hk : k3 = k
      · have h32 : ¬ k3 = k2 := by rw [hk]; exact hnk
        simp only [setField, if_pos hk, lookupField]
        rw [if_neg h32, if_neg h32]
      · simp only [setField, if_neg hk, lookupField]
        by_cases hk2 : k3 = k2
        · rw [if_pos hk2, if_pos hk2]
        · rw [if_neg hk2, if_neg hk2, ih]

theorem setField_ne_nil (fs : List (String × JVal)) (k : String) (v : JVal) :
    setField fs k v ≠ [] := by
  cases fs with
  | nil => simp [setField]
  | cons f rest =>
    cases f with
    | mk k2 v2 =>
      by_cases hk : k2 = k <;> simp [setField, hk]

theorem setField_setField_same (fs : List (String × JVal)) (k : String)
    (v : JVal) : setField (setField fs k v) k v = setField fs k v := by
  induction fs with
  | nil => simp [setField]
  | cons f rest ih =>
    cases f with
    | mk k2 v2 =>
      by_cases hk : k2 = k <;> simp [setField, hk, ih]

/-- A valid read determines the slot's stored payload and expiration. -/
theorem get_cache_some {α : Type} {st : CacheState α} {k : String} {now : Nat}
    {v : α} (h : get_cache st k now = some v) :
    ∃ exp, st k = some ⟨some v, some exp⟩ ∧ now < exp := by
  unfold get_cache is_cache_valid at h
  cases hst : st k with
  | none => rw [hst] at h; simp at h
  | some e =>
    cases e with
    | mk dataF expF =>
      rw [hst] at h
      cases dataF with
      | none => simp at h
      | some d =>
        cases expF with
        | none => simp at h
        | some exp =>
          by_cases hlt : now < exp
          · rw [if_pos (decide_eq_true hlt)] at h
            refine ⟨exp, ?_, hlt⟩
            have hd : some d = some v := h
            have hd2 : d = v := Option.some.inj hd
            subst hd2
            rfl
          · rw [if_neg (fun hh => hlt (of_decide_eq_true hh))] at h
            exact absurd h (by simp)

/-- C8: the `banking://rates/daily` resource stores the RAW provider
JSON in both shared slots; hence a later `get_bullion_prices` call inside
the validity window finds the bare provider dict in the `bullion` slot
and returns it augmented only with `cached = True` — a result that lacks
the `success`, `data` and `message` fields the bullion tool's own shaped
results carry. -/
theorem claim_C8_banking_interference (t0 t1 : Nat) (url : String)
    (fxs : List JVal) (bfs : List (String × JVal)) (out : FetchOutcome)
    (hbt : jTruthy (.obj bfs) = true)
    (ht2 : t1 < get_cache_expiration t0)
    (hs : lookupField bfs "success" = none)
    (hd : lookupField bfs "data" = none)
    (hm : lookupField bfs "message" = none) :
    (get_banking_rates (@initState JVal) t0 (.ok (.arr fxs)) (.ok (.obj bfs))).2
        "bullion" = some ⟨some (.obj bfs), some (get_cache_expiration t0)⟩ ∧
    (get_banking_rates (@initState JVal) t0 (.ok (.arr fxs)) (.ok (.obj bfs))).2
        "forex" = some ⟨some (.arr fxs), some (get_cache_expiration t0)⟩ ∧
    (∀ st2 : CacheState JVal,
      st2 "bullion" = some ⟨some (.obj bfs), some (get_cache_expiration t0)⟩ →
      (get_bullion_prices st2 t1 url out).1
        = .obj (setField bfs "cached" (.bool true))) ∧
    jLookup (.obj (setField bfs "cached" (.bool true))) "cached"
      = some (.bool true) ∧
    jLookup (.obj (setField bfs "cached" (.bool true))) "success" = none ∧
    jLookup (.obj (setField bfs "cached" (.bool true))) "data" = none ∧
    jLookup (.obj (setField bfs "cached" (.bool true))) "message" = none := by
  have hgf : get_cache (@initState JVal) "forex" t0 = none := by
    simp [get_cache, is_cache_valid, initState]
  have hgb : get_cache (@initState JVal) "bullion" t0 = none := by
    simp [get_cache, is_cache_valid, initState]
  have hstate : (get_banking_rates (@initState JVal) t0 (.ok (.arr fxs))
      (.ok (.obj bfs))).2
      = set_cache (set_cache (@initState JVal) "forex" (.arr fxs) t0)
          "bullion" (.obj bfs) t0 := by
    rw [get_banking_rates]
    simp only [hgf, hgb]
    cases hbf : bankingFormat (.arr fxs) (.obj bfs) false <;> simp [hbf]
  refine ⟨?_, ?_, ?_, ?_, ?_, ?_, ?_⟩
  · rw [hstate]
    simp [set_cache]
  · rw [hstate]
    simp [set_cache]
  · intro st2 h2
    have hval : get_cache st2 "bullion" t1 = some (.obj bfs) := by
      simp [get_cache, is_cache_valid, h2, ht2]
    rw [get_bullion_prices, hval]
    simp only [hbt, if_true]
  · exact lookupField_setField_self bfs "cached" (.bool true)
  · rw [jLookup, lookupField_setField_ne bfs "cached" "success" (.bool true)
      (by decide)]
    exact hs
  · rw [jLookup, lookupField_setField_ne bfs "cached" "data" (.bool true)
      (by decide)]
    exact hd
  · rw [jLookup, lookupField_setField_ne bfs "cached" "message" (.bool true)
      (by decide)]
    exact hm

/-- Concrete raw provider bodies for the C8 witness. -/
def wBullionRaw : List (String × JVal) :=
  [("fine_gold", JVal.atom 1), ("silver", JVal.atom 2),
   ("unit", JVal.str "tola"), ("date", JVal.str "2025-01-01")]

/-- Witness for C8 at concrete inputs: the resource populates both slots
from the initial state and the next bullion tool call returns the raw
dict plus `cached = True`. -/
theorem claim_C8_banking_interference_witness :
    (get_banking_rates (@initState JVal) 0
        (.ok (.arr [JVal.obj [("currency", JVal.str "usd")]]))
        (.ok (.obj wBullionRaw))).2 "bullion"
      = some ⟨some (.obj wBullionRaw), some (get_cache_expiration 0)⟩ ∧
    (get_banking_rates (@initState JVal) 0
        (.ok (.arr [JVal.obj [("currency", JVal.str "usd")]]))
        (.ok (.obj wBullionRaw))).2 "forex"
      = some ⟨some (.arr [JVal.obj [("currency", JVal.str "usd")]]),
          some (get_cache_expiration 0)⟩ ∧
    (∀ st2 : CacheState JVal,
      st2 "bullion" = some ⟨some (.obj wBullionRaw),
        some (get_cache_expiration 0)⟩ →
      (get_bullion_prices st2 1 "u" FetchOutcome.timeout).1
        = .obj (setField wBullionRaw "cached" (.bool true))) ∧
    jLookup (.obj (setField wBullionRaw "cached" (.bool true))) "cached"
      = some (.bool true) ∧
    jLookup (.obj (setField wBullionRaw "cached" (.bool true))) "success"
      = none ∧
    jLookup (.obj (setField wBullionRaw "cached" (.bool true))) "data" = none ∧
    jLookup (.obj (setField wBullionRaw "cached" (.bool true))) "message"
      = none :=
  claim_C8_banking_interference 0 1 "u"
    [JVal.obj [("currency", JVal.str "usd")]] wBullionRaw
    FetchOutcome.timeout rfl (by decide) rfl rfl rfl

/-- C9: on a cache hit `get_bullion_prices` mutates the stored payload
in place: the returned dict is the slot's own object with its `cached`
key set to `True`, the slot's data field now holds exactly that object,
its `expires_at` is untouched, and a second hit returns the same object
unchanged (the flag is permanent). -/
theorem claim_C9_read_side_mutation (st : CacheState JVal) (now : Nat)
    (url : String) (out : FetchOutcome) (fs : List (String × JVal))
    (hc : get_cache st "bullion" now = some (.obj fs))
    (ht : jTruthy (.obj fs) = true) :
    (get_bullion_prices st now url out).1
      = .obj (setField fs "cached" (.bool true)) ∧
    (get_bullion_prices st now url out).2 "bullion"
      = (st "bullion").map (fun e =>
          ⟨some (.obj (setField fs "cached" (.bool true))), e.expires_at⟩) ∧
    ((get_bullion_prices st now url out).2 "bullion").bind
        (fun e => e.expires_at)
      = (st "bullion").bind (fun e => e.expires_at) ∧
    lookupField (setField fs "cached" (.bool true)) "cached"
      = some (.bool true) ∧
    (get_bullion_prices ((get_bullion_prices st now url out).2) now url out).1
      = .obj (setField fs "cached" (.bool true)) := by
  obtain ⟨exp, hslot, hlt⟩ := get_cache_some hc
  have h1 : get_bullion_prices st now url out
      = (.obj (setField fs "cached" (.bool true)),
         updateData st "bullion" (.obj (setField fs "cached" (.bool true)))) := by
    rw [get_bullion_prices, hc]
    simp only [ht, if_true]
  have h2 : (get_bullion_prices st now url out).2 "bullion"
      = some ⟨some (.obj (setField fs "cached" (.bool true))), some exp⟩ := by
    rw [h1]
    simp [updateData, hslot]
  refine ⟨by rw [h1], ?_, ?_, lookupField_setField_self fs "cached" (.bool true), ?_⟩
  · rw [h1, hslot]
    simp [updateData, hslot]
  · rw [h2, hslot]
    rfl
  · have hval2 : get_cache ((get_bullion_prices st now url out).2) "bullion" now
        = some (.obj (setField fs "cached" (.bool true))) := by
      simp [get_cache, is_cache_valid, h2, hlt]
    rw [get_bullion_prices, hval2]
    have ht2 : jTruthy (.obj (setField fs "cached" (.bool true))) = true := by
      simp [jTruthy, List.isEmpty_iff, setField_ne_nil]
    simp only [ht2, if_true]
    rw [setField_setField_same]

/-- Witness for C9 at concrete inputs: a bullion hit on a slot populated
with the raw dict `wBullionRaw` at instant 0, read at instant 1. -/
theorem claim_C9_read_side_mutation_witness :
    (get_bullion_prices
        (set_cache (@initState JVal) "bullion" (.obj wBullionRaw) 0) 1 "u"
        FetchOutcome.timeout).1
      = .obj (setField wBullionRaw "cached" (.bool true)) ∧
    (get_bullion_prices
        (set_cache (@initState JVal) "bullion" (.obj wBullionRaw) 0) 1 "u"
        FetchOutcome.timeout).2 "bullion"
      = ((set_cache (@initState JVal) "bullion" (.obj wBullionRaw) 0)
          "bullion").map (fun e =>
            ⟨some (.obj (setField wBullionRaw "cached" (.bool true))),
             e.expires_at⟩) ∧
    ((get_bullion_prices
        (set_cache (@initState JVal) "bullion" (.obj wBullionRaw) 0) 1 "u"
        FetchOutcome.timeout).2 "bullion").bind (fun e => e.expires_at)
      = ((set_cache (@initState JVal) "bullion" (.obj wBullionRaw) 0)
          "bullion").bind (fun e => e.expires_at) ∧
    lookupField (setField wBullionRaw "cached" (.bool true)) "cached"
      = some (.bool true) ∧
    (get_bullion_prices
        ((get_bullion_prices
          (set_cache (@initState JVal) "bullion" (.obj wBullionRaw) 0) 1 "u"
          FetchOutcome.timeout).2) 1 "u" FetchOutcome.timeout).1
      = .obj (setField wBullionRaw "cached" (.bool true)) :=
  claim_C9_read_side_mutation
    (set_cache (@initState JVal) "bullion" (.obj wBullionRaw) 0) 1 "u"
    FetchOutcome.timeout wBullionRaw rfl rfl

end ExchangeRateMcp
